import Mathlib

/-!
# Verification of `chromite/buildbot/validation_pool.py`

A shallow embedding of the validation-pool module: the tree-status gate
(`_IsTreeOpen`), pool construction (`__init__`, `AcquirePool`,
`AcquirePoolFromManifest`), the apply phase (`ApplyPoolIntoRepo` together with
`HandleApplicationFailure`), and the submit phase (`SubmitPool`).

Modelling conventions:
* Changes are identified by natural numbers (their Gerrit identity).
* External effects (HTTP fetches of the status page, `change.Apply`,
  `change.Submit`) are modelled by explicit oracle parameters, and the calls
  the code performs are recorded in trace fields so that "performs zero calls"
  style properties are statable.
* Python exceptions become explicit `raised` constructors in result types.
-/

/-- Outcome of one `urllib.urlopen(status_url)` attempt inside `_IsTreeOpen`:
either the open raises `IOError`, or the response code is not 200, or a 200
response with well-formed JSON is obtained whose `general_state` field holds
the given string. -/
inductive FetchResult where
  | ioError
  | badCode
  | ok (general_state : String)
  deriving Repr, DecidableEq

/-- `['open', 'throttled']`: the membership test on `general_state` performed at
the end of `_IsTreeOpen`. -/
def treeOpenStates : List String := ["open", "throttled"]

/-- `max_attempts = 5` in `_IsTreeOpen`. -/
def maxAttempts : Nat := 5

/-- One complete run of the `_IsTreeOpen` retry loop: the boolean it returns,
the list of sleep durations performed (in order, one per failed attempt, via
`_SleepWithExponentialBackOff`), and the number of `urlopen` calls issued. -/
structure GateRun where
  result : Bool
  sleeps : List Nat
  calls : Nat
  deriving Repr, DecidableEq

/-- The `for attempt in range(max_attempts)` loop of `_IsTreeOpen`.
`attempts i` is the outcome of the `urlopen` call on (0-based) attempt `i`;
`fuel` is the number of remaining iterations and `current_sleep` the current
backoff duration (initially 1).  A 200 response breaks out of the loop and the
verdict is `general_state in ['open', 'throttled']`; a bad status code or an
`IOError` sleeps `current_sleep` seconds, doubles it, and retries; exhausting
the range hits the `for`-`else` clause, which fails open (returns `True`). -/
def runGate (attempts : Nat → FetchResult) : Nat → Nat → Nat → GateRun
  | _, 0, _ => { result := true, sleeps := [], calls := 0 }
  | i, fuel + 1, current_sleep =>
    match attempts i with
    | .ok general_state =>
        { result := decide (general_state ∈ treeOpenStates), sleeps := [], calls := 1 }
    | .badCode =>
        let r := runGate attempts (i + 1) fuel (current_sleep * 2)
        { result := r.result, sleeps := current_sleep :: r.sleeps, calls := r.calls + 1 }
    | .ioError =>
        let r := runGate attempts (i + 1) fuel (current_sleep * 2)
        { result := r.result, sleeps := current_sleep :: r.sleeps, calls := r.calls + 1 }

/-- `ValidationPool._IsTreeOpen()`: run the retry loop from attempt 0 with
`max_attempts = 5` iterations of budget and `current_sleep = 1`. -/
def IsTreeOpen (attempts : Nat → FetchResult) : Bool :=
  (runGate attempts 0 maxAttempts 1).result

/-- The sleep durations `_IsTreeOpen` performs, in order. -/
def gateSleeps (attempts : Nat → FetchResult) : List Nat :=
  (runGate attempts 0 maxAttempts 1).sleeps

/-- The number of `urlopen` attempts `_IsTreeOpen` issues. -/
def gateCalls (attempts : Nat → FetchResult) : Nat :=
  (runGate attempts 0 maxAttempts 1).calls

/-- Whether a fetch outcome is a well-formed 200 response. -/
def FetchResult.isOk : FetchResult → Bool
  | .ok _ => true
  | _ => false

-- Helper lemmas about the gate loop.

lemma runGate_result_all_fail (attempts : Nat → FetchResult) :
    ∀ fuel i s, (∀ j, j < fuel → (attempts (i + j)).isOk = false) →
      (runGate attempts i fuel s).result = true := by
  intro fuel
  induction fuel with
  | zero => intro i s _; rfl
  | succ f ih =>
      intro i s h
      have h0 : (attempts i).isOk = false := by simpa using h 0 (Nat.succ_pos f)
      rcases hi : attempts i with _ | _ | st
      · simp only [runGate, hi]
        exact ih (i + 1) (s * 2) (fun j hj => by
          have := h (j + 1) (Nat.succ_lt_succ hj)
          simpa [Nat.add_assoc, Nat.add_comm 1 j] using this)
      · simp only [runGate, hi]
        exact ih (i + 1) (s * 2) (fun j hj => by
          have := h (j + 1) (Nat.succ_lt_succ hj)
          simpa [Nat.add_assoc, Nat.add_comm 1 j] using this)
      · rw [hi] at h0; simp [FetchResult.isOk] at h0

lemma runGate_result_first_ok (attempts : Nat → FetchResult) :
    ∀ fuel i s k st, k < fuel → (∀ j, j < k → (attempts (i + j)).isOk = false) →
      attempts (i + k) = .ok st →
      (runGate attempts i fuel s).result = decide (st ∈ treeOpenStates) := by
  intro fuel
  induction fuel with
  | zero => intro i s k st hk; exact absurd hk (Nat.not_lt_zero k)
  | succ f ih =>
      intro i s k st hk hfail hok
      cases k with
      | zero =>
          simp only [Nat.add_zero] at hok
          simp [runGate, hok]
      | succ k' =>
          have h0 : (attempts i).isOk = false := by
            simpa using hfail 0 (Nat.succ_pos k')
          rcases hi : attempts i with _ | _ | st'
          · simp only [runGate, hi]
            exact ih (i + 1) (s * 2) k' st (Nat.lt_of_succ_lt_succ hk)
              (fun j hj => by
                have := hfail (j + 1) (Nat.succ_lt_succ hj)
                simpa [Nat.add_assoc, Nat.add_comm 1 j] using this)
              (by simpa [Nat.add_assoc, Nat.add_comm 1 k'] using hok)
          · simp only [runGate, hi]
            exact ih (i + 1) (s * 2) k' st (Nat.lt_of_succ_lt_succ hk)
              (fun j hj => by
                have := hfail (j + 1) (Nat.succ_lt_succ hj)
                simpa [Nat.add_assoc, Nat.add_comm 1 j] using this)
              (by simpa [Nat.add_assoc, Nat.add_comm 1 k'] using hok)
          · rw [hi] at h0; simp [FetchResult.isOk] at h0

lemma runGate_calls_le (attempts : Nat → FetchResult) :
    ∀ fuel i s, (runGate attempts i fuel s).calls ≤ fuel := by
  intro fuel
  induction fuel with
  | zero => intro i s; exact Nat.le_refl 0
  | succ f ih =>
      intro i s
      rcases hi : attempts i with _ | _ | st
      · simp only [runGate, hi]
        exact Nat.succ_le_succ (ih (i + 1) (s * 2))
      · simp only [runGate, hi]
        exact Nat.succ_le_succ (ih (i + 1) (s * 2))
      · simp only [runGate, hi]
        exact Nat.succ_le_succ (Nat.zero_le f)

lemma runGate_sleeps_shape (attempts : Nat → FetchResult) :
    ∀ fuel i s, ∃ k, (runGate attempts i fuel s).sleeps
      = (List.range k).map (fun n => s * 2 ^ n) := by
  intro fuel
  induction fuel with
  | zero =>
      intro i s
      exact ⟨0, by simp [runGate]⟩
  | succ f ih =>
      intro i s
      rcases hi : attempts i with _ | _ | st
      · obtain ⟨k, hk⟩ := ih (i + 1) (s * 2)
        refine ⟨k + 1, ?_⟩
        simp only [runGate, hi, hk, List.range_succ_eq_map, List.map_cons, List.map_map]
        refine congrArg₂ List.cons (by ring) ?_
        exact List.map_congr_left (fun n _ => by
          simp [Function.comp, Nat.pow_succ]; ring)
      · obtain ⟨k, hk⟩ := ih (i + 1) (s * 2)
        refine ⟨k + 1, ?_⟩
        simp only [runGate, hi, hk, List.range_succ_eq_map, List.map_cons, List.map_map]
        refine congrArg₂ List.cons (by ring) ?_
        exact List.map_congr_left (fun n _ => by
          simp [Function.comp, Nat.pow_succ]; ring)
      · exact ⟨0, by simp [runGate, hi]⟩

/-- The `ValidationPool` object state used by the claims: the `changes` working
set (changes identified by `Nat`) and the effective `dryrun` flag.  The
`gerrit_helper` handle is not modelled as data; the calls made through it are
recorded in the run traces below. -/
structure ValidationPool where
  changes : List Nat
  dryrun : Bool
  deriving Repr, DecidableEq

/-- `ValidationPool.__init__(self, dryrun)`:
`self.changes = []; self.dryrun = dryrun | self.GLOBAL_DRYRUN`.
`GLOBAL_DRYRUN` is the class attribute (default `False`, settable
process-wide), passed here explicitly; `|` on Python booleans is
boolean or. -/
def ValidationPool.init (dryrun GLOBAL_DRYRUN : Bool) : ValidationPool :=
  { changes := [], dryrun := dryrun || GLOBAL_DRYRUN }

/-- The exceptions the modelled code can raise: `TreeIsClosedException`
(a class of its own, distinct from every other error kind), and Python's
built-in `TypeError` (raised by a call whose arity does not match the callee's
signature). -/
inductive PoolExn where
  | treeClosed
  | typeError
  deriving Repr, DecidableEq

/-- Result of an acquisition entry point: either an exception propagates or a
`ValidationPool` object is returned. -/
inductive AcquireResult where
  | raised (e : PoolExn)
  | returned (pool : ValidationPool)
  deriving Repr, DecidableEq

/-- A Python call `ValidationPool(*args)` (with `GLOBAL_DRYRUN` the current
class attribute).  `__init__(self, dryrun)` declares exactly one required
parameter besides `self`, so a call with any other number of arguments raises
`TypeError` before the body runs. -/
def ValidationPoolCall (args : List Bool) (GLOBAL_DRYRUN : Bool) : AcquireResult :=
  match args with
  | [dryrun] => .returned (ValidationPool.init dryrun GLOBAL_DRYRUN)
  | _ => .raised .typeError

/-- Trace of one `AcquirePool` call: its outcome, the number of
`GrabChangesReadyForCommit` calls and the number of
`FilterProjectsNotInSourceTree` calls made on the Gerrit helper. -/
structure AcquireRun where
  result : AcquireResult
  grabCalls : Nat
  filterCalls : Nat
  deriving Repr, DecidableEq

/-- `ValidationPool.AcquirePool(branch, internal, buildroot, dryrun)`.
If `_IsTreeOpen()` holds: build a pool via `ValidationPool(dryrun)`, grab the
changes ready for commit (modelled by the oracle list `readyChanges`), filter
out projects not in the source tree (modelled by the predicate
`inSourceTree`), and return the pool.  Otherwise raise
`TreeIsClosedException` without touching the Gerrit helper. -/
def AcquirePool (attempts : Nat → FetchResult) (dryrun GLOBAL_DRYRUN : Bool)
    (readyChanges : List Nat) (inSourceTree : Nat → Bool) : AcquireRun :=
  if IsTreeOpen attempts then
    match ValidationPoolCall [dryrun] GLOBAL_DRYRUN with
    | .returned pool =>
        let raw_changes := readyChanges
        { result := .returned { pool with changes := raw_changes.filter inSourceTree }
          grabCalls := 1
          filterCalls := 1 }
    | .raised e => { result := .raised e, grabCalls := 0, filterCalls := 0 }
  else
    { result := .raised .treeClosed, grabCalls := 0, filterCalls := 0 }

/-- A `<pending_commit>` element of the manifest: the three string attributes
read by `AcquirePoolFromManifest`. -/
structure PendingCommit where
  project : String
  change_id : String
  commit : String
  deriving Repr, DecidableEq

/-- Trace of one `AcquirePoolFromManifest` call: its outcome and the number of
`GrabPatchFromGerrit` calls made. -/
structure ManifestRun where
  result : AcquireResult
  fetchCalls : Nat
  deriving Repr, DecidableEq

/-- `ValidationPool.AcquirePoolFromManifest(manifest, internal)`.
The body's first statement is `pool = ValidationPool()` — a call with zero
arguments against the one-required-argument `__init__`, so Python raises
`TypeError` there; only if a pool were obtained would the code parse the
manifest's pending commits and append, per triple in document order, the
change fetched by `GrabPatchFromGerrit(project, change, commit)` (modelled by
the oracle `GrabPatchFromGerrit`).  No tree-gate check appears on this path
(the definition takes no `attempts` oracle at all). -/
def AcquirePoolFromManifest (pending_commits : List PendingCommit)
    (GLOBAL_DRYRUN : Bool)
    (GrabPatchFromGerrit : String → String → String → Nat) : ManifestRun :=
  match ValidationPoolCall [] GLOBAL_DRYRUN with
  | .raised e => { result := .raised e, fetchCalls := 0 }
  | .returned pool =>
      let changes := pending_commits.map
        (fun pc => GrabPatchFromGerrit pc.project pc.change_id pc.commit)
      { result := .returned { pool with changes := changes }
        fetchCalls := pending_commits.length }

/-- CPython's `list(set(a) - set(b))` for small non-negative ints: `hash(n) = n`
and the open-addressed table iterates slots in increasing hash order, so the
resulting list is the set difference in increasing numeric order (and
duplicate-free), independent of the insertion order of `a`. -/
def pyListSetDiff (a b : List Nat) : List Nat :=
  ((a.filter (fun c => decide (c ∉ b))).dedup).insertionSort (fun x y => x ≤ y)

/-- The `for change in self.changes` loop of `ApplyPoolIntoRepo`: each change
gets an independent `change.Apply(directory, trivial=True)` attempt (outcome
given by the oracle `applies`; `False` models `ApplyPatchException`), and the
failures are collected into `non_applied_changes` in iteration order.  No
failure stops the loop. -/
def applyLoop (applies : Nat → Bool) : List Nat → List Nat
  | [] => []
  | change :: rest =>
      if applies change then applyLoop applies rest
      else change :: applyLoop applies rest

/-- `ValidationPool.HandleApplicationFailure(changes)`: one
`change.HandleCouldNotApply(...)` call per change, in order; the returned list
is the trace of those calls. -/
def HandleApplicationFailure (changes : List Nat) : List Nat :=
  changes

/-- Trace of one `ApplyPoolIntoRepo` call: the pool afterwards, the changes on
which `Apply` was attempted (in order), the `HandleCouldNotApply`
notifications issued (in order), and the returned boolean. -/
structure ApplyRun where
  pool : ValidationPool
  attempted : List Nat
  notified : List Nat
  result : Bool
  deriving Repr, DecidableEq

/-- `ValidationPool.ApplyPoolIntoRepo(directory)`: run the apply loop over
every change; if any change failed, notify `HandleApplicationFailure` and
replace `self.changes` by `list(set(self.changes) - set(non_applied_changes))`;
finally return `len(self.changes) > 0` on the updated pool. -/
def ValidationPool.ApplyPoolIntoRepo (self : ValidationPool)
    (applies : Nat → Bool) : ApplyRun :=
  let non_applied_changes := applyLoop applies self.changes
  if non_applied_changes.isEmpty then
    { pool := self
      attempted := self.changes
      notified := []
      result := decide (self.changes.length > 0) }
  else
    let changes := pyListSetDiff self.changes non_applied_changes
    { pool := { self with changes := changes }
      attempted := self.changes
      notified := HandleApplicationFailure non_applied_changes
      result := decide (changes.length > 0) }

/-- Result of a `SubmitPool` call: either an exception propagates or a value
is returned — Python's implicit `None` when control falls off the end of the
function, or `True` from the `return True` statement. -/
inductive SubmitResult where
  | raised (e : PoolExn)
  | returned (value : Option Bool)
  deriving Repr, DecidableEq

/-- Trace of one `SubmitPool` call: the pool afterwards, its outcome, the
changes on which `Submit` was called (in order) and the
`HandleCouldNotSubmit` notifications issued. -/
structure SubmitRun where
  pool : ValidationPool
  result : SubmitResult
  submitCalls : List Nat
  couldNotSubmitCalls : List Nat
  deriving Repr, DecidableEq

/-- `ValidationPool.SubmitPool()`.  If `_IsTreeOpen()` fails, raise
`TreeIsClosedException` with no submit calls.  Otherwise iterate
`for change in self.changes`: call `change.Submit(...)` (outcome given by the
oracle `submitOk`; `False` models `cros_build_lib.RunCommandError`, routed to
`change.HandleCouldNotSubmit(...)`) — but the `return True` statement is
indented inside the loop body, so the body runs at most once: the head change
alone is attempted and `True` is returned; with an empty `changes` list the
loop body never runs and the function falls through, returning `None`.
`self.changes` is never assigned. -/
def ValidationPool.SubmitPool (self : ValidationPool)
    (attempts : Nat → FetchResult) (submitOk : Nat → Bool) : SubmitRun :=
  if IsTreeOpen attempts then
    match self.changes with
    | [] =>
        { pool := self, result := .returned none
          submitCalls := [], couldNotSubmitCalls := [] }
    | change :: _ =>
        if submitOk change then
          { pool := self, result := .returned (some true)
            submitCalls := [change], couldNotSubmitCalls := [] }
        else
          { pool := self, result := .returned (some true)
            submitCalls := [change], couldNotSubmitCalls := [change] }
  else
    { pool := self, result := .raised .treeClosed
      submitCalls := [], couldNotSubmitCalls := [] }

-- Helper lemmas about the apply phase.

lemma applyLoop_eq_filter (applies : Nat → Bool) (l : List Nat) :
    applyLoop applies l = l.filter (fun c => !applies c) := by
  induction l with
  | nil => rfl
  | cons c rest ih =>
      by_cases h : applies c <;> simp [applyLoop, h, ih, List.filter_cons]

lemma pyListSetDiff_toFinset (a b : List Nat) :
    (pyListSetDiff a b).toFinset = a.toFinset \ b.toFinset := by
  ext c
  simp [pyListSetDiff, List.mem_insertionSort, List.mem_dedup, List.mem_filter,
    Finset.mem_sdiff]

lemma applyPool_pool_changes_toFinset (self : ValidationPool) (applies : Nat → Bool) :
    (self.ApplyPoolIntoRepo applies).pool.changes.toFinset
      = self.changes.toFinset \ (applyLoop applies self.changes).toFinset := by
  unfold ValidationPool.ApplyPoolIntoRepo
  rcases hne : (applyLoop applies self.changes).isEmpty with _ | _
  · have hnil : applyLoop applies self.changes ≠ [] := by
      simpa [List.isEmpty_iff] using hne
    simp [hne, pyListSetDiff_toFinset]
  · have hnil : applyLoop applies self.changes = [] := by
      simpa [List.isEmpty_iff] using hne
    simp [hne, hnil]

/-- C8: a pool constructed with instance dry-run flag `d` (and process-wide
global flag `g`) has effective dry-run value `d OR g`; in particular, when the
global flag is set, every instance is in dry-run mode regardless of its
constructor argument. -/
theorem init_dryrun_or_global (d g : Bool) :
    (ValidationPool.init d g).dryrun = (d || g) ∧
    (ValidationPool.init d true).dryrun = true := by
  constructor
  · rfl
  · simp [ValidationPool.init]

/-- C3: `_IsTreeOpen` returns `True` exactly when a well-formed response's
`general_state` is `'open'` or `'throttled'` (first such response decides,
any other state value gives `False`), and when all 5 attempts fail to obtain a
well-formed 200 response it fails open and returns `True`. -/
theorem isTreeOpen_verdict_and_fail_open (attempts : Nat → FetchResult) :
    (∀ i st, i < maxAttempts → (∀ j, j < i → (attempts j).isOk = false) →
        attempts i = .ok st →
        IsTreeOpen attempts = decide (st = "open" ∨ st = "throttled")) ∧
    ((∀ i, i < maxAttempts → (attempts i).isOk = false) →
        IsTreeOpen attempts = true) := by
  constructor
  · intro i st hi hfail hok
    have h := runGate_result_first_ok attempts maxAttempts 0 1 i st hi
      (fun j hj => by simpa using hfail j hj) (by simpa using hok)
    rw [IsTreeOpen, h]
    simp [treeOpenStates]
  · intro h
    exact runGate_result_all_fail attempts maxAttempts 0 1
      (fun j hj => by simpa using h j hj)

/-- Witness for C3: a first-attempt `closed` verdict yields `False`; five
unreachable attempts fail open to `True`. -/
theorem isTreeOpen_verdict_witness :
    IsTreeOpen (fun _ => FetchResult.ok "closed") = false ∧
    IsTreeOpen (fun _ => FetchResult.ioError) = true := by
  constructor
  · have h := (isTreeOpen_verdict_and_fail_open (fun _ => FetchResult.ok "closed")).1
      0 "closed" (by decide) (fun j hj => absurd hj (Nat.not_lt_zero j)) rfl
    rw [h]
    decide
  · exact (isTreeOpen_verdict_and_fail_open (fun _ => FetchResult.ioError)).2
      (fun i _ => rfl)

/-- C7: `_IsTreeOpen` issues at most 5 attempts, and the sleep performed after
the n-th failed attempt (0-based index `n` here, so the claim's n-th failure
is index `n − 1`) lasts `2 ^ n` times the initial 1-second interval: the
sequence 1s, 2s, 4s, 8s, …. -/
theorem isTreeOpen_backoff (attempts : Nat → FetchResult) (n : Nat)
    (h : n < (gateSleeps attempts).length) :
    (gateSleeps attempts).get ⟨n, h⟩ = 1 * 2 ^ n ∧
    gateCalls attempts ≤ maxAttempts := by
  refine ⟨?_, runGate_calls_le attempts maxAttempts 0 1⟩
  obtain ⟨k, hk⟩ := runGate_sleeps_shape attempts maxAttempts 0 1
  have hg : gateSleeps attempts = (List.range k).map (fun m => 1 * 2 ^ m) := hk
  rw [List.get_eq_getElem]
  simp only [hg]
  have hn : n < k := by
    have h' := h
    rw [hg, List.length_map, List.length_range] at h'
    exact h'
  simp [List.getElem_map, List.getElem_range]

/-- Witness for C7: with five unreachable attempts the fourth failure (index 3)
sleeps 8 seconds. -/
theorem isTreeOpen_backoff_witness :
    (gateSleeps (fun _ => FetchResult.ioError)).get ⟨3, by decide⟩ = 1 * 2 ^ 3 ∧
    gateCalls (fun _ => FetchResult.ioError) ≤ maxAttempts :=
  isTreeOpen_backoff (fun _ => FetchResult.ioError) 3 (by decide)

/-- C5: whenever the tree gate reports closed, `AcquirePool` raises
`TreeIsClosedException`, performs zero calls to the change source (no grab,
no filter), creates no partial state (no pool is returned), and the raised
condition is distinguishable from every other error kind. -/
theorem acquirePool_closed_tree (attempts : Nat → FetchResult)
    (dryrun GLOBAL_DRYRUN : Bool) (readyChanges : List Nat)
    (inSourceTree : Nat → Bool) (h : IsTreeOpen attempts = false) :
    (AcquirePool attempts dryrun GLOBAL_DRYRUN readyChanges inSourceTree).result
        = .raised .treeClosed ∧
    (AcquirePool attempts dryrun GLOBAL_DRYRUN readyChanges inSourceTree).grabCalls = 0 ∧
    (AcquirePool attempts dryrun GLOBAL_DRYRUN readyChanges inSourceTree).filterCalls = 0 ∧
    (∀ pool, (AcquirePool attempts dryrun GLOBAL_DRYRUN readyChanges inSourceTree).result
        ≠ .returned pool) ∧
    (∀ e : PoolExn, e ≠ .treeClosed →
      (AcquirePool attempts dryrun GLOBAL_DRYRUN readyChanges inSourceTree).result
        ≠ .raised e) := by
  refine ⟨?_, ?_, ?_, ?_, ?_⟩
  · simp [AcquirePool, h]
  · simp [AcquirePool, h]
  · simp [AcquirePool, h]
  · intro pool
    simp [AcquirePool, h]
  · intro e he
    simp only [AcquirePool, h, Bool.false_eq_true, if_false]
    intro hc
    exact he (AcquireResult.raised.inj hc).symm

/-- Witness for C5: with the endpoint reporting `closed` on the first attempt,
`AcquirePool` raises the tree-closed condition and makes no Gerrit calls. -/
theorem acquirePool_closed_tree_witness :
    (AcquirePool (fun _ => FetchResult.ok "closed") false false [1, 2]
        (fun _ => true)).result = AcquireResult.raised PoolExn.treeClosed ∧
    (AcquirePool (fun _ => FetchResult.ok "closed") false false [1, 2]
        (fun _ => true)).grabCalls = 0 := by
  have h := acquirePool_closed_tree (fun _ => FetchResult.ok "closed") false false
    [1, 2] (fun _ => true) (by decide)
  exact ⟨h.1, h.2.1⟩

/-- C6: whenever the tree gate reports closed at `SubmitPool` call time (the
gate is re-checked inside `SubmitPool`), the call raises
`TreeIsClosedException`, performs zero per-change submit calls, and leaves the
pool's change list unchanged. -/
theorem submitPool_closed_tree (self : ValidationPool)
    (attempts : Nat → FetchResult) (submitOk : Nat → Bool)
    (h : IsTreeOpen attempts = false) :
    (self.SubmitPool attempts submitOk).result = .raised .treeClosed ∧
    (self.SubmitPool attempts submitOk).submitCalls = [] ∧
    (self.SubmitPool attempts submitOk).couldNotSubmitCalls = [] ∧
    (self.SubmitPool attempts submitOk).pool = self := by
  refine ⟨?_, ?_, ?_, ?_⟩ <;> simp [ValidationPool.SubmitPool, h]

/-- Witness for C6: a two-change pool under a `closed` verdict raises and
submits nothing. -/
theorem submitPool_closed_tree_witness :
    (ValidationPool.SubmitPool ⟨[1, 2], false⟩ (fun _ => FetchResult.ok "closed")
        (fun _ => true)).result = SubmitResult.raised PoolExn.treeClosed ∧
    (ValidationPool.SubmitPool ⟨[1, 2], false⟩ (fun _ => FetchResult.ok "closed")
        (fun _ => true)).submitCalls = [] := by
  have h := submitPool_closed_tree ⟨[1, 2], false⟩ (fun _ => FetchResult.ok "closed")
    (fun _ => true) (by decide)
  exact ⟨h.1, h.2.1⟩

/-- C9: when the tree gate reports open and the pool's change list is empty,
`SubmitPool` falls off the end of the function and returns Python's `None`,
not a boolean. -/
theorem submitPool_empty_returns_none (dryrun : Bool)
    (attempts : Nat → FetchResult) (submitOk : Nat → Bool)
    (h : IsTreeOpen attempts = true) :
    (ValidationPool.SubmitPool ⟨[], dryrun⟩ attempts submitOk).result
        = .returned none ∧
    (∀ b : Bool, (ValidationPool.SubmitPool ⟨[], dryrun⟩ attempts submitOk).result
        ≠ .returned (some b)) := by
  constructor
  · simp [ValidationPool.SubmitPool, h]
  · intro b
    simp [ValidationPool.SubmitPool, h]

/-- Witness for C9: open tree, empty pool, the call returns `None`. -/
theorem submitPool_empty_returns_none_witness :
    (ValidationPool.SubmitPool ⟨[], false⟩ (fun _ => FetchResult.ok "open")
        (fun _ => true)).result = SubmitResult.returned none :=
  (submitPool_empty_returns_none false (fun _ => FetchResult.ok "open")
    (fun _ => true) (by decide)).1

/-- C1: the claim says `SubmitPool` attempts a submit for every change and
returns `True` only after all changes have been attempted; the code's
`return True` sits inside the loop body, so on a two-change pool under an
open tree only the first change's submit is attempted before `True` is
returned — the second change is never touched. -/
theorem submitPool_short_circuits_after_first_change :
    (ValidationPool.SubmitPool ⟨[1, 2], false⟩ (fun _ => FetchResult.ok "open")
        (fun _ => true)).submitCalls = [1] ∧
    (ValidationPool.SubmitPool ⟨[1, 2], false⟩ (fun _ => FetchResult.ok "open")
        (fun _ => true)).submitCalls ≠ [1, 2] ∧
    (ValidationPool.SubmitPool ⟨[1, 2], false⟩ (fun _ => FetchResult.ok "open")
        (fun _ => true)).result = SubmitResult.returned (some true) := by
  decide

/-- C4: the claim says `AcquirePoolFromManifest` returns a populated pool with
one fetched change per manifest triple; the body's first statement
`pool = ValidationPool()` passes no argument to the one-required-argument
`__init__`, so every call raises `TypeError` before any change is fetched and
no pool is ever returned. -/
theorem acquirePoolFromManifest_raises_typeError
    (pending_commits : List PendingCommit) (GLOBAL_DRYRUN : Bool)
    (GrabPatchFromGerrit : String → String → String → Nat) :
    (AcquirePoolFromManifest pending_commits GLOBAL_DRYRUN GrabPatchFromGerrit).result
        = .raised .typeError ∧
    (AcquirePoolFromManifest pending_commits GLOBAL_DRYRUN GrabPatchFromGerrit).fetchCalls
        = 0 ∧
    (∀ pool, (AcquirePoolFromManifest pending_commits GLOBAL_DRYRUN
        GrabPatchFromGerrit).result ≠ .returned pool) := by
  refine ⟨rfl, rfl, ?_⟩
  intro pool hc
  exact AcquireResult.noConfusion hc

/-- C2: `ApplyPoolIntoRepo` attempts every change independently (the full
original list is attempted in order, with no short-circuit), the surviving
change set equals the original set minus the failed set, each failed change
receives exactly one could-not-apply notification (and no unfailed change
receives any), and the return value is `True` iff at least one change remains
in the pool. -/
theorem applyPoolIntoRepo_partial_failure_contract (self : ValidationPool)
    (applies : Nat → Bool) (hnd : self.changes.Nodup) :
    (self.ApplyPoolIntoRepo applies).attempted = self.changes ∧
    (self.ApplyPoolIntoRepo applies).pool.changes.toFinset
        = self.changes.toFinset \ (applyLoop applies self.changes).toFinset ∧
    (∀ c ∈ applyLoop applies self.changes,
        (self.ApplyPoolIntoRepo applies).notified.count c = 1) ∧
    (∀ c, c ∉ applyLoop applies self.changes →
        (self.ApplyPoolIntoRepo applies).notified.count c = 0) ∧
    ((self.ApplyPoolIntoRepo applies).result = true
        ↔ (self.ApplyPoolIntoRepo applies).pool.changes ≠ []) := by
  have hloopnd : (applyLoop applies self.changes).Nodup := by
    rw [applyLoop_eq_filter]
    exact hnd.filter _
  refine ⟨?_, applyPool_pool_changes_toFinset self applies, ?_, ?_, ?_⟩
  · by_cases hL : applyLoop applies self.changes = [] <;>
      simp [ValidationPool.ApplyPoolIntoRepo, hL]
  · intro c hc
    have hL : ¬ applyLoop applies self.changes = [] := fun h0 => by
      rw [h0] at hc
      exact (List.not_mem_nil c) hc
    simp only [ValidationPool.ApplyPoolIntoRepo, List.isEmpty_iff, hL, if_false,
      HandleApplicationFailure]
    exact List.count_eq_one_of_mem hloopnd hc
  · intro c hc
    by_cases hL : applyLoop applies self.changes = []
    · simp [ValidationPool.ApplyPoolIntoRepo, hL]
    · simp only [ValidationPool.ApplyPoolIntoRepo, List.isEmpty_iff, hL, if_false,
        HandleApplicationFailure]
      exact List.count_eq_zero_of_not_mem hc
  · by_cases hL : applyLoop applies self.changes = [] <;>
      simp [ValidationPool.ApplyPoolIntoRepo, hL, List.length_pos]

/-- Witness for C2: on the duplicate-free pool `[1, 2, 3]` where only change 3
fails to apply, every change is attempted, the pool keeps exactly `{1, 2}`,
and change 3 is notified exactly once. -/
theorem applyPoolIntoRepo_contract_witness :
    (ValidationPool.ApplyPoolIntoRepo ⟨[1, 2, 3], false⟩
        (fun c => decide (c ≠ 3))).attempted = [1, 2, 3] ∧
    (ValidationPool.ApplyPoolIntoRepo ⟨[1, 2, 3], false⟩
        (fun c => decide (c ≠ 3))).notified.count 3 = 1 := by
  have h := applyPoolIntoRepo_partial_failure_contract ⟨[1, 2, 3], false⟩
    (fun c => decide (c ≠ 3)) (by decide)
  exact ⟨h.1, h.2.2.1 3 (by decide)⟩

/-- C10: when at least one change fails to apply, the surviving change list is
rebuilt through `list(set(...) - set(...))`, so only set membership of the
survivors is guaranteed; on the pool `[2, 1, 3]` with change 3 failing, the
survivors come back as `[1, 2]`, not in their original relative order
`[2, 1]`. -/
theorem applyPoolIntoRepo_set_rebuild_loses_order :
    (∀ (self : ValidationPool) (applies : Nat → Bool),
      (self.ApplyPoolIntoRepo applies).pool.changes.toFinset
        = (self.changes.filter applies).toFinset) ∧
    ∃ (self : ValidationPool) (applies : Nat → Bool),
      (self.ApplyPoolIntoRepo applies).pool.changes
        ≠ self.changes.filter applies := by
  constructor
  · intro self applies
    rw [applyPool_pool_changes_toFinset, applyLoop_eq_filter]
    ext c
    simp only [Finset.mem_sdiff, List.mem_toFinset, List.mem_filter]
    constructor
    · rintro ⟨hc, hn⟩
      refine ⟨hc, ?_⟩
      cases ha : applies c
      · exact absurd ⟨hc, by rw [ha]; rfl⟩ hn
      · rfl
    · rintro ⟨hc, ha⟩
      refine ⟨hc, fun h2 => ?_⟩
      rw [ha] at h2
      simpa using h2.2
  · exact ⟨⟨[2, 1, 3], false⟩, fun c => decide (c ≠ 3), by decide⟩
